import Mathlib

/-!
Verification of the credential-verifier backend (`src/backend/app.py`).

The whole program is one Flask route handler:

```python
@app.route('/api/login', methods=['POST'])
def login():
    creds = request.json
    cur = mysql.connection.cursor()
    cur.execute("SELECT * FROM users WHERE username = %s AND password = %s",
               (creds['username'], creds['password']))
    user = cur.fetchone()
    cur.close()

    if user:
        return jsonify({
            'id': user[0],
            'username': user[1],
            'role': user[3],
            'assignedCity': user[4]
        }), 200
    return jsonify({}), 401
```

We embed it shallowly: the MySQL `users` table becomes a list of rows, the
parameterized `SELECT` becomes a filter by literal string equality (that is
exactly the semantics of parameter binding: the supplied values are compared
as data, never spliced into query text), `fetchone` becomes `List.head?`,
the JSON request body becomes an association list of strings, and dictionary
key access becomes an `Except` that faults (Python `KeyError`) on a missing
key.  The handler exit record also tracks whether the cursor was still open
at exit and which store operations were issued, so that resource-release and
read-only claims can be stated.
-/

/-- A row of the `users` table.  Column order follows the table schema used
by the handler: `user[0]` = id, `user[1]` = username, `user[2]` = password,
`user[3]` = role, `user[4]` = assignedCity. -/
structure UserRow where
  id : Int
  username : String
  password : String
  role : String
  assignedCity : String
deriving DecidableEq, Repr

/-- The persistent `users` table, in fetch order. -/
abbrev Store := List UserRow

/-- A JSON value as produced by `jsonify` for this handler's bodies. -/
inductive JVal where
  | jint : Int → JVal
  | jstr : String → JVal
deriving DecidableEq, Repr

/-- A JSON object: ordered key/value pairs. -/
abbrev JObj := List (String × JVal)

/-- The parsed JSON request body (`request.json`): a string-keyed dict. -/
abbrev ReqBody := List (String × String)

/-- Store operations a handler could issue.  The login handler only issues
`selectUsers`; the write operations exist so that "read-only" is a real
statement about the operations issued, not a vacuity of the model. -/
inductive StoreOp where
  | selectUsers : String → String → StoreOp
  | insertUser : UserRow → StoreOp
  | deleteUser : String → StoreOp
deriving DecidableEq, Repr

/-- Whether a store operation is a pure read. -/
def StoreOp.isRead : StoreOp → Bool
  | .selectUsers _ _ => true
  | .insertUser _ => false
  | .deleteUser _ => false

/-- The WHERE clause `username = %s AND password = %s` with bound parameters:
literal equality of the supplied strings against the stored columns. -/
def matchesCreds (u p : String) (r : UserRow) : Bool :=
  r.username == u && r.password == p

/-- Semantics of one store operation: the store after it, and the result
rows it fetches.  `selectUsers` never changes the store. -/
def runStore (db : Store) : StoreOp → Store × List UserRow
  | .selectUsers u p => (db, db.filter (matchesCreds u p))
  | .insertUser r => (db ++ [r], [])
  | .deleteUser u => (db.filter (fun r => r.username != u), [])

/-- Running a sequence of store operations. -/
def applyOps (db : Store) (ops : List StoreOp) : Store :=
  ops.foldl (fun d op => (runStore d op).1) db

/-- Python dict access `d[k]`: the value when the key is present, otherwise
a `KeyError` fault. -/
def dictGet (d : ReqBody) (k : String) : Except String String :=
  match d.lookup k with
  | some v => Except.ok v
  | none => Except.error ("KeyError: " ++ k)

/-- The success body the handler builds: exactly the keys
`id, username, role, assignedCity`, in that order, from columns 0, 1, 3, 4
of the fetched row.  Column 2 (the stored password) is not read. -/
def successBody (r : UserRow) : JObj :=
  [("id", JVal.jint r.id), ("username", JVal.jstr r.username),
   ("role", JVal.jstr r.role), ("assignedCity", JVal.jstr r.assignedCity)]

/-- Everything observable at handler exit: the store state, the HTTP
response (or the uncaught fault), whether the cursor was still open, and the
store operations that were issued. -/
structure HandlerExit where
  store : Store
  response : Except String (JObj × Nat)
  cursorOpen : Bool
  ops : List StoreOp
deriving Repr

/-- The `/api/login` handler, line by line.  The cursor is acquired before
the argument tuple `(creds['username'], creds['password'])` is evaluated, so
a `KeyError` escapes with the cursor still open: the source has no
`try/finally` or `with` around `cur.close()`.  On both response paths the
single `SELECT` runs, `fetchone` takes the first row, and `cur.close()`
executes before the return. -/
def login (db : Store) (creds : ReqBody) : HandlerExit :=
  match dictGet creds "username" with
  | Except.error e => { store := db, response := Except.error e, cursorOpen := true, ops := [] }
  | Except.ok u =>
    match dictGet creds "password" with
    | Except.error e => { store := db, response := Except.error e, cursorOpen := true, ops := [] }
    | Except.ok p =>
      let op := StoreOp.selectUsers u p
      let res := runStore db op
      match res.2.head? with
      | some r =>
        { store := res.1, response := Except.ok (successBody r, 200),
          cursorOpen := false, ops := [op] }
      | none =>
        { store := res.1, response := Except.ok ([], 401),
          cursorOpen := false, ops := [op] }

/-- The spec's §3 store invariant: `username` is unique across all records. -/
abbrev uniqueUsernames (db : Store) : Prop :=
  db.Pairwise (fun a b => a.username ≠ b.username)

/-- The concrete record of the spec's §8 scenario. -/
def alice : UserRow :=
  { id := 1, username := "alice", password := "secret", role := "admin",
    assignedCity := "Lisbon" }

/-- A second concrete record, distinct from `alice`, for the
cross-account-leakage scenario. -/
def bob : UserRow :=
  { id := 2, username := "bob", password := "pw", role := "user",
    assignedCity := "Porto" }

/-- Two concrete records sharing the same `(username, password)` pair but
with different ids, for the duplicate-row scenario. -/
def dupA : UserRow :=
  { id := 10, username := "carol", password := "pw", role := "user",
    assignedCity := "Faro" }

/-- The second duplicate record: same credentials as `dupA`, different id. -/
def dupB : UserRow :=
  { id := 11, username := "carol", password := "pw", role := "admin",
    assignedCity := "Braga" }

-- ## Helper lemmas

/-- Unfolding the WHERE clause into propositional equality. -/
lemma matchesCreds_iff (u p : String) (r : UserRow) :
    matchesCreds u p r = true ↔ r.username = u ∧ r.password = p := by
  simp [matchesCreds]

/-- Under the username-uniqueness invariant, a matching record is the only
row the query fetches. -/
lemma filter_eq_singleton_of_unique (db : Store) (u p : String) (r : UserRow)
    (huniq : List.Pairwise (fun a b => a.username ≠ b.username) db) (hmem : r ∈ db)
    (hu : r.username = u) (hp : r.password = p) :
    db.filter (matchesCreds u p) = [r] := by
  induction db with
  | nil => cases hmem
  | cons a tl ih =>
    rw [List.pairwise_cons] at huniq
    obtain ⟨hhead, htl⟩ := huniq
    rcases List.mem_cons.mp hmem with heq | hmemtl
    · have hfa : matchesCreds u p a = true := by
        rw [← heq]; exact (matchesCreds_iff u p r).mpr ⟨hu, hp⟩
      have htlnil : tl.filter (matchesCreds u p) = [] := by
        apply List.filter_eq_nil_iff.mpr
        intro b hb hmb
        have hbu : b.username = u := ((matchesCreds_iff u p b).mp hmb).1
        exact hhead b hb (by rw [← heq, hu, hbu])
      have hstep : (a :: tl).filter (matchesCreds u p) = [a] := by
        simp [List.filter_cons, hfa, htlnil]
      rw [hstep, heq]
    · have hfa : matchesCreds u p a = false := by
        apply Bool.eq_false_iff.mpr
        intro hma
        have hau : a.username = u := ((matchesCreds_iff u p a).mp hma).1
        exact hhead r hmemtl (hau.trans hu.symm)
      rw [List.filter_cons_of_neg (by simp [hfa])]
      exact ih htl hmemtl

/-- The first fetched row of the query is a record of the store that
literally matches the supplied credentials. -/
lemma head_filter_spec (db : Store) (u p : String) (r : UserRow)
    (h : (db.filter (matchesCreds u p)).head? = some r) :
    r ∈ db ∧ r.username = u ∧ r.password = p := by
  have hmem : r ∈ db.filter (matchesCreds u p) :=
    List.mem_of_mem_head? (Option.mem_def.mpr h)
  have := List.mem_filter.mp hmem
  exact ⟨this.1, (matchesCreds_iff u p r).mp this.2⟩

/-- When both keys are present and a row is fetched, the handler returns the
projection of that row with status 200, the cursor closed, the store
untouched, and exactly one SELECT issued. -/
lemma login_found (db : Store) (creds : ReqBody) (u p : String) (r : UserRow)
    (hu : creds.lookup "username" = some u)
    (hp : creds.lookup "password" = some p)
    (hr : (db.filter (matchesCreds u p)).head? = some r) :
    login db creds =
      { store := db, response := Except.ok (successBody r, 200),
        cursorOpen := false, ops := [StoreOp.selectUsers u p] } := by
  simp [login, dictGet, hu, hp, runStore, hr]

/-- When both keys are present and no row matches, the handler returns the
empty JSON object with status 401, the cursor closed, the store untouched,
and exactly one SELECT issued. -/
lemma login_notfound (db : Store) (creds : ReqBody) (u p : String)
    (hu : creds.lookup "username" = some u)
    (hp : creds.lookup "password" = some p)
    (hr : (db.filter (matchesCreds u p)).head? = none) :
    login db creds =
      { store := db, response := Except.ok ([], 401),
        cursorOpen := false, ops := [StoreOp.selectUsers u p] } := by
  simp [login, dictGet, hu, hp, runStore, hr]

-- ## Claim theorems

/-- C1: for every username `u` and password `p` such that the store (under
its §3 invariant of unique usernames) contains a record with `username = u`
and `password = p`, the `POST /api/login` handler returns HTTP 200 with a
JSON body containing exactly the fields `id, username, role, assignedCity`
projected from that record (columns 0, 1, 3, 4). -/
theorem C1_login_success_projects_matching_record
    (db : Store) (creds : ReqBody) (u p : String) (r : UserRow)
    (huniq : uniqueUsernames db)
    (hu : creds.lookup "username" = some u)
    (hp : creds.lookup "password" = some p)
    (hr : r ∈ db) (hru : r.username = u) (hrp : r.password = p) :
    (login db creds).response = Except.ok (successBody r, 200) := by
  have hfl := filter_eq_singleton_of_unique db u p r huniq hr hru hrp
  rw [login_found db creds u p r hu hp (by rw [hfl]; rfl)]

/-- C1 witness: the spec's concrete scenario — the store holds
`{id:1, username:"alice", password:"secret", role:"admin",
assignedCity:"Lisbon"}` and the request supplies alice's credentials. -/
theorem C1_witness :
    (login [alice] [("username", "alice"), ("password", "secret")]).response =
      Except.ok ([("id", JVal.jint 1), ("username", JVal.jstr "alice"),
                  ("role", JVal.jstr "admin"),
                  ("assignedCity", JVal.jstr "Lisbon")], 200) :=
  C1_login_success_projects_matching_record [alice]
    [("username", "alice"), ("password", "secret")] "alice" "secret" alice
    (by simp) rfl rfl (by simp) rfl rfl

/-- C2: for every request carrying both keys whose `(u, p)` pair matches no
stored record, the handler returns HTTP 401 with the empty JSON object `{}`
as body (the shape the source's `jsonify({}), 401` produces). -/
theorem C2_login_failure_401_empty_object
    (db : Store) (creds : ReqBody) (u p : String)
    (hu : creds.lookup "username" = some u)
    (hp : creds.lookup "password" = some p)
    (hnone : ∀ r ∈ db, ¬(r.username = u ∧ r.password = p)) :
    (login db creds).response = Except.ok (([] : JObj), 401) := by
  have hfl : db.filter (matchesCreds u p) = [] := by
    apply List.filter_eq_nil_iff.mpr
    intro r hr hm
    exact hnone r hr ((matchesCreds_iff u p r).mp hm)
  rw [login_notfound db creds u p hu hp (by rw [hfl]; rfl)]

/-- C2 witness: wrong password for alice yields 401 and `{}`. -/
theorem C2_witness :
    (login [alice] [("username", "alice"), ("password", "wrong")]).response =
      Except.ok (([] : JObj), 401) :=
  C2_login_failure_401_empty_object [alice]
    [("username", "alice"), ("password", "wrong")] "alice" "wrong"
    rfl rfl (by decide)

/-- C3: under the unique-username invariant, a successful login with the
supplied credentials always returns the projection of the record that
matches those credentials, and never the projection of any other record (no
cross-account leakage). -/
theorem C3_no_cross_account_leakage
    (db : Store) (creds : ReqBody) (u p : String) (r1 r2 : UserRow)
    (huniq : uniqueUsernames db)
    (hu : creds.lookup "username" = some u)
    (hp : creds.lookup "password" = some p)
    (hr1 : r1 ∈ db) (hr1u : r1.username = u) (hr1p : r1.password = p)
    (hr2 : r2 ∈ db) (hne : r1 ≠ r2) :
    (login db creds).response = Except.ok (successBody r1, 200) ∧
      successBody r1 ≠ successBody r2 := by
  refine ⟨C1_login_success_projects_matching_record db creds u p r1 huniq hu hp hr1 hr1u hr1p, ?_⟩
  have hsym : Symmetric (fun a b : UserRow => a.username ≠ b.username) :=
    fun a b h hba => h hba.symm
  have hune : r1.username ≠ r2.username := huniq.forall hsym hr1 hr2 hne
  intro hbody
  simp only [successBody, List.cons.injEq, Prod.mk.injEq, JVal.jstr.injEq] at hbody
  exact hune hbody.2.1.2

/-- C3 witness: two distinct users; alice's credentials return alice's
projection and not bob's. -/
theorem C3_witness :
    (login [alice, bob]
        [("username", "alice"), ("password", "secret")]).response =
      Except.ok (successBody alice, 200) ∧
      successBody alice ≠ successBody bob :=
  C3_no_cross_account_leakage [alice, bob]
    [("username", "alice"), ("password", "secret")] "alice" "secret" alice bob
    (by simp [alice, bob]) rfl rfl (by simp) rfl rfl (by simp)
    (by simp [alice, bob])

/-- C4: a request body missing the `username` key or the `password` key
makes the handler fault with an uncaught `KeyError` instead of returning a
clean 400/401 response. -/
theorem C4_missing_key_faults
    (db : Store) (creds : ReqBody)
    (h : creds.lookup "username" = none ∨ creds.lookup "password" = none) :
    ∃ e, (login db creds).response = Except.error e := by
  cases hu : creds.lookup "username" with
  | none => exact ⟨"KeyError: " ++ "username", by simp [login, dictGet, hu]⟩
  | some u =>
    have hpn : creds.lookup "password" = none := by
      rcases h with h | h
      · rw [hu] at h; cases h
      · exact h
    exact ⟨"KeyError: " ++ "password", by simp [login, dictGet, hu, hpn]⟩

/-- C4 witness: an empty request body faults with a `KeyError`. -/
theorem C4_witness :
    ∃ e, (login [alice] ([] : ReqBody)).response = Except.error e :=
  C4_missing_key_faults [alice] [] (Or.inl rfl)

/-- C5 counterexample: the claim says the cursor is released on ALL exit
paths, including the path where the key access raises.  On the concrete
input of an empty request body, the handler exits through the `KeyError`
path with the cursor still open: the source has no `try/finally` or `with`
around `cur.close()`. -/
theorem C5_counterexample :
    (login [alice] ([] : ReqBody)).cursorOpen = true ∧
    (login [alice] ([] : ReqBody)).response =
      Except.error ("KeyError: " ++ "username") :=
  ⟨rfl, rfl⟩

/-- C5 amended: on every exit path that produces an HTTP response (both the
200 and the 401 path, i.e. whenever both keys are present in the body), the
cursor is closed before the handler returns; release is NOT guaranteed on
the error path, where a `KeyError` escapes with the cursor still open. -/
theorem C5_cursor_closed_on_response_paths
    (db : Store) (creds : ReqBody) (u p : String)
    (hu : creds.lookup "username" = some u)
    (hp : creds.lookup "password" = some p) :
    (login db creds).cursorOpen = false := by
  cases hhead : (db.filter (matchesCreds u p)).head? with
  | some r => rw [login_found db creds u p r hu hp hhead]
  | none => rw [login_notfound db creds u p hu hp hhead]

/-- C5 witness: with both keys present the cursor is closed at exit. -/
theorem C5_witness :
    (login [alice] [("username", "alice"), ("password", "wrong")]).cursorOpen
      = false :=
  C5_cursor_closed_on_response_paths [alice]
    [("username", "alice"), ("password", "wrong")] "alice" "wrong" rfl rfl

/-- C6: the match is a literal exact string-equality comparison of the
bound parameter values against the stored columns — the login succeeds
(status 200) if and only if some record's `username` and `password` fields
are literally equal to the supplied strings, SQL metacharacters included. -/
theorem C6_literal_equality_match
    (db : Store) (creds : ReqBody) (u p : String)
    (hu : creds.lookup "username" = some u)
    (hp : creds.lookup "password" = some p) :
    (∃ body, (login db creds).response = Except.ok (body, 200)) ↔
      ∃ r ∈ db, r.username = u ∧ r.password = p := by
  cases hhead : (db.filter (matchesCreds u p)).head? with
  | some r =>
    rw [login_found db creds u p r hu hp hhead]
    constructor
    · intro _
      obtain ⟨hmem, hru, hrp⟩ := head_filter_spec db u p r hhead
      exact ⟨r, hmem, hru, hrp⟩
    · intro _
      exact ⟨successBody r, rfl⟩
  | none =>
    rw [login_notfound db creds u p hu hp hhead]
    constructor
    · rintro ⟨body, hbody⟩
      simp at hbody
    · rintro ⟨r, hmem, hru, hrp⟩
      have hrf : r ∈ db.filter (matchesCreds u p) :=
        List.mem_filter.mpr ⟨hmem, (matchesCreds_iff u p r).mpr ⟨hru, hrp⟩⟩
      rw [List.head?_eq_none_iff] at hhead
      rw [hhead] at hrf
      cases hrf

/-- C6 witness: the SQL wildcard `%` is compared literally — it matches no
stored record, instead of acting as a pattern that would match `alice`. -/
theorem C6_witness :
    ((∃ body, (login [alice] [("username", "%"), ("password", "%")]).response
        = Except.ok (body, 200)) ↔
      ∃ r ∈ [alice], r.username = "%" ∧ r.password = "%") :=
  C6_literal_equality_match [alice] [("username", "%"), ("password", "%")]
    "%" "%" rfl rfl

/-- C7: when several stored records match the supplied pair, the handler
returns 200 with the projection of the first row the query fetches (the
model's list order stands in for the store's unspecified fetch order). -/
theorem C7_first_fetched_row_wins
    (db : Store) (creds : ReqBody) (u p : String) (r : UserRow)
    (hu : creds.lookup "username" = some u)
    (hp : creds.lookup "password" = some p)
    (hhead : (db.filter (matchesCreds u p)).head? = some r) :
    (login db creds).response = Except.ok (successBody r, 200) := by
  rw [login_found db creds u p r hu hp hhead]

/-- C7 witness: two records with the same credentials and different ids;
the response projects the first one (`dupA`, id 10), not `dupB` (id 11). -/
theorem C7_witness :
    (login [dupA, dupB] [("username", "carol"), ("password", "pw")]).response
      = Except.ok (successBody dupA, 200) :=
  C7_first_fetched_row_wins [dupA, dupB]
    [("username", "carol"), ("password", "pw")] "carol" "pw" dupA
    rfl rfl (by decide)

/-- C8: every invocation leaves the store unchanged — both the store state
at exit and the effect of replaying the issued operations equal the initial
store; every issued operation is a read, and when both keys are present the
handler issues exactly the one SELECT. -/
theorem C8_read_only_single_query
    (db : Store) (creds : ReqBody) :
    (login db creds).store = db ∧
    applyOps db (login db creds).ops = db ∧
    (∀ op ∈ (login db creds).ops, op.isRead = true) ∧
    (∀ u p, creds.lookup "username" = some u →
      creds.lookup "password" = some p →
      (login db creds).ops = [StoreOp.selectUsers u p]) := by
  cases hu : creds.lookup "username" with
  | none => simp [login, dictGet, hu, applyOps]
  | some u =>
    cases hp : creds.lookup "password" with
    | none => simp [login, dictGet, hu, hp, applyOps]
    | some p =>
      have hops : ∀ hx : HandlerExit, login db creds = hx →
          hx.ops = [StoreOp.selectUsers u p] → hx.store = db →
          (login db creds).store = db ∧
          applyOps db (login db creds).ops = db ∧
          (∀ op ∈ (login db creds).ops, op.isRead = true) ∧
          (∀ u' p', some u = some u' → some p = some p' →
            (login db creds).ops = [StoreOp.selectUsers u' p']) := by
        intro hx hlogin hxops hxstore
        rw [hlogin, hxops, hxstore]
        refine ⟨rfl, by simp [applyOps, runStore], by simp [StoreOp.isRead], ?_⟩
        intro u' p' hu' hp'
        rw [Option.some.inj hu', Option.some.inj hp']
      cases hhead : (db.filter (matchesCreds u p)).head? with
      | some r => exact hops _ (login_found db creds u p r hu hp hhead) rfl rfl
      | none => exact hops _ (login_notfound db creds u p hu hp hhead) rfl rfl

/-- C8 witness: on the concrete scenario store and request, the store is
unchanged, replaying the ops is the identity, and exactly the one SELECT
was issued. -/
theorem C8_witness :
    (login [alice] [("username", "alice"), ("password", "secret")]).store
      = [alice] ∧
    applyOps [alice]
      (login [alice] [("username", "alice"), ("password", "secret")]).ops
      = [alice] ∧
    (login [alice] [("username", "alice"), ("password", "secret")]).ops
      = [StoreOp.selectUsers "alice" "secret"] := by
  have h := C8_read_only_single_query [alice]
    [("username", "alice"), ("password", "secret")]
  exact ⟨h.1, h.2.1, h.2.2.2 "alice" "secret" rfl rfl⟩

/-- C9: the stored password (column 2) never reaches a response — every
response body is either exactly the four keys `id, username, role,
assignedCity` or the empty object, and the projection is insensitive to the
password column of the projected row. -/
theorem C9_password_never_in_body
    (db : Store) (creds : ReqBody) (body : JObj) (st : Nat)
    (h : (login db creds).response = Except.ok (body, st)) :
    (body.map Prod.fst = ["id", "username", "role", "assignedCity"] ∨
      body = []) ∧
    (∀ r : UserRow, ∀ q : String,
      successBody { r with password := q } = successBody r) := by
  refine ⟨?_, fun r q => rfl⟩
  cases hu : creds.lookup "username" with
  | none => simp [login, dictGet, hu] at h
  | some u =>
    cases hp : creds.lookup "password" with
    | none => simp [login, dictGet, hu, hp] at h
    | some p =>
      cases hhead : (db.filter (matchesCreds u p)).head? with
      | some r =>
        rw [login_found db creds u p r hu hp hhead] at h
        simp only [Except.ok.injEq, Prod.mk.injEq] at h
        left
        rw [← h.1]
        rfl
      | none =>
        rw [login_notfound db creds u p hu hp hhead] at h
        simp only [Except.ok.injEq, Prod.mk.injEq] at h
        right
        exact h.1.symm

/-- C9 witness: alice's success body has exactly the four public keys, and
the projection ignores the password column. -/
theorem C9_witness :
    ((successBody alice).map Prod.fst =
        ["id", "username", "role", "assignedCity"] ∨ successBody alice = []) ∧
    (∀ r : UserRow, ∀ q : String,
      successBody { r with password := q } = successBody r) :=
  C9_password_never_in_body [alice]
    [("username", "alice"), ("password", "secret")] (successBody alice) 200
    (by rfl)

/-- C10: the handler is deterministic — for a fixed store state, two
invocations with equal request bodies produce the same response (same
status and body, or the same fault). -/
theorem C10_deterministic
    (db1 db2 : Store) (c1 c2 : ReqBody) (hdb : db1 = db2) (hc : c1 = c2) :
    (login db1 c1).response = (login db2 c2).response := by
  rw [hdb, hc]

/-- C10 witness: two invocations on the concrete scenario agree. -/
theorem C10_witness :
    (login [alice] [("username", "alice"), ("password", "secret")]).response =
    (login [alice] [("username", "alice"), ("password", "secret")]).response :=
  C10_deterministic [alice] [alice]
    [("username", "alice"), ("password", "secret")]
    [("username", "alice"), ("password", "secret")] rfl rfl
